import Mathlib

/-!
Verification of the quote-and-hedge decision engine of the Ready-Trader-Go
autotrader (src/autotrader.py).

Modelling conventions:
* Python integers are `ℤ` (or `ℕ` for order ids); Python float arithmetic
  (`math.sqrt`, `math.log`, true division) is modelled with exact real numbers.
* A Python numeric exception (`ValueError` from `math.sqrt`/`math.log` on an
  out-of-domain argument, `ZeroDivisionError` from `1 / 0.0`) is modelled as
  `Option.none`.
* The mutable `AutoTrader` object is a `TraderState` record; every event
  handler is a function from the old state (plus the event's payload) to the
  new state together with the list of outbound commands it issues.
* Python dicts keyed by order id are association lists (`List (ℕ × Order)`);
  Python 3.7+ dicts preserve insertion order, which the association list
  mirrors (`del` keeps the order of the remaining entries).
* `self.event_loop.time()` is an explicit `now : ℚ` parameter of the book
  update handler.
-/

namespace RTG

/-- `POSITION_LIMIT = 100` from src/autotrader.py. -/
def POSITION_LIMIT : ℤ := 100

/-- `TICK_SIZE_IN_CENTS = 100` from src/autotrader.py. -/
def TICK_SIZE_IN_CENTS : ℤ := 100

/-- `MINIMUM_BID` is imported by src/autotrader.py from the external
`ready_trader_go` framework (not part of this repository); its standard value
there is 1. -/
def MINIMUM_BID : ℤ := 1

/-- `MAXIMUM_ASK` is imported from the external `ready_trader_go` framework;
its standard value there is `2 ^ 31 - 1`. -/
def MAXIMUM_ASK : ℤ := 2 ^ 31 - 1

/-- `MIN_BID_NEAREST_TICK = (MINIMUM_BID + TICK_SIZE_IN_CENTS) // TICK_SIZE_IN_CENTS * TICK_SIZE_IN_CENTS`. -/
def MIN_BID_NEAREST_TICK : ℤ := (MINIMUM_BID + TICK_SIZE_IN_CENTS) / TICK_SIZE_IN_CENTS * TICK_SIZE_IN_CENTS

/-- `MAX_ASK_NEAREST_TICK = MAXIMUM_ASK // TICK_SIZE_IN_CENTS * TICK_SIZE_IN_CENTS`. -/
def MAX_ASK_NEAREST_TICK : ℤ := MAXIMUM_ASK / TICK_SIZE_IN_CENTS * TICK_SIZE_IN_CENTS

/-- `LIQUIDITY_MAGNITUDE = 8`. -/
def LIQUIDITY_MAGNITUDE : ℕ := 8

/-- `LIQUIDITY_THRESHOLDS = [t * 10**LIQUIDITY_MAGNITUDE for t in (0.15, 0.4, 0.65)]`.
The Python values are floats; we use the exact rationals they denote (the
claims never compare a liquidity to a threshold within the rounding error of
a double). -/
def LIQUIDITY_THRESHOLDS : List ℚ :=
  [(0.15 : ℚ) * 10 ^ LIQUIDITY_MAGNITUDE, (0.4 : ℚ) * 10 ^ LIQUIDITY_MAGNITUDE,
    (0.65 : ℚ) * 10 ^ LIQUIDITY_MAGNITUDE]

/-- `POSITION_THRESHOLDS = [-90, -50, -25, 25, 50, 90]`. -/
def POSITION_THRESHOLDS : List ℤ := [-90, -50, -25, 25, 50, 90]

/-- `UNHEDGED_LIMIT = 50` (seconds). -/
def UNHEDGED_LIMIT : ℚ := 50

/-- `HEDGED_THRESHOLD = 100`. -/
def HEDGED_THRESHOLD : ℤ := 100

/-- `HEDGE_PERCENTAGE = .001` (defined in the source but only used in
commented-out code). -/
def HEDGE_PERCENTAGE : ℚ := 0.001

/-- `SPREAD = 3`. -/
def SPREAD : ℤ := 3

/-- `HEDGED_UPPER_THRESHOLD = 60` (defined in the source but never used). -/
def HEDGED_UPPER_THRESHOLD : ℤ := 60

/-- `LOT_SIZE_ARBITARY_NUMBER = 40` (sic), the tuning constant K. -/
def LOT_SIZE_ARBITARY_NUMBER : ℤ := 40

/-- `ready_trader_go.Side`: `SELL = 0`, `BUY = 1`, with the aliases
`ASK = SELL` and `BID = BUY`. -/
inductive Side where
  | sell : Side
  | buy : Side
deriving DecidableEq, Repr

/-- Alias `Side.BID = Side.BUY`. -/
def Side.bid : Side := Side.buy

/-- Alias `Side.ASK = Side.SELL`. -/
def Side.ask : Side := Side.sell

/-- `ready_trader_go.Instrument`: `FUTURE = 0`, `ETF = 1`. -/
inductive Instrument where
  | future : Instrument
  | etf : Instrument
deriving DecidableEq, Repr

/-- The `Order` class of src/autotrader.py: `id`, `price`, `lot`, `start`. -/
structure Order where
  id : ℕ
  price : ℤ
  lot : ℤ
  start : ℤ
deriving DecidableEq, Repr

/-- A Python dict mapping order ids to `Order`s, as an insertion-ordered
association list. -/
abbrev OrderSet := List (ℕ × Order)

/-- `order_id in order_set` (Python dict membership). -/
def containsKey (l : OrderSet) (k : ℕ) : Bool :=
  l.any (fun kv => kv.1 = k)

/-- `order_set[k] = v` (Python dict assignment): overwrite in place if the key
is present, otherwise append. -/
def insertKV (l : OrderSet) (k : ℕ) (v : Order) : OrderSet :=
  if containsKey l k then l.map (fun kv => if kv.1 = k then (k, v) else kv)
  else l ++ [(k, v)]

/-- `del order_set[k]` (Python dict deletion); keeps the order of the
remaining entries. -/
def eraseKV (l : OrderSet) (k : ℕ) : OrderSet :=
  l.filter (fun kv => kv.1 ≠ k)

/-- An outbound command handed to the external session layer:
`send_cancel_order`, `send_insert_order` (always `Lifespan.GOOD_FOR_DAY` in
this program, so the lifespan argument is omitted) or `send_hedge_order`. -/
inductive Action where
  | cancelOrder (id : ℕ) : Action
  | insertOrder (id : ℕ) (side : Side) (price lot : ℤ) : Action
  | hedgeOrder (id : ℕ) (side : Side) (price lot : ℤ) : Action
deriving DecidableEq, Repr

/-- The mutable state of the `AutoTrader` object (the fields assigned in
`__init__` of src/autotrader.py).  `nextId` models the `itertools.count(1)`
id generator: it is the id the next `next(self.order_ids)` call returns. -/
structure TraderState where
  nextId : ℕ
  etf_position : ℤ
  futures_position : ℤ
  position : ℤ
  unhedged_start : ℚ
  unhedged_interval : ℚ
  market_state : ℝ
  bid_liquidity : ℝ
  ask_liquidity : ℝ
  new_bid_lot : ℤ
  new_ask_lot : ℤ
  new_bid_price : ℤ
  new_ask_price : ℤ
  etf_bids : OrderSet
  etf_asks : OrderSet
  futures_bids : OrderSet
  futures_asks : OrderSet
  bid_base : Option Order
  ask_base : Option Order
  bid_shifted : Option Order
  ask_shifted : Option Order
  is_hedging : Bool

/-- The state built by `AutoTrader.__init__`: the id counter starts at 1 and
every other field is zero / empty / `None` / `False`. -/
def initState : TraderState where
  nextId := 1
  etf_position := 0
  futures_position := 0
  position := 0
  unhedged_start := 0
  unhedged_interval := 0
  market_state := 0
  bid_liquidity := 0
  ask_liquidity := 0
  new_bid_lot := 0
  new_ask_lot := 0
  new_bid_price := 0
  new_ask_price := 0
  etf_bids := []
  etf_asks := []
  futures_bids := []
  futures_asks := []
  bid_base := none
  ask_base := none
  bid_shifted := none
  ask_shifted := none
  is_hedging := false

/-- The result of `AutoTrader.reset_orders`: the advanced id counter, the
updated order set, the returned `base` order, and the outbound commands. -/
structure ResetResult where
  nextId : ℕ
  orders : OrderSet
  base : Option Order
  actions : List Action
deriving Repr

/-- `AutoTrader.reset_orders(order_set, side, lot, price)`.  A cancel is sent
for every id currently in the set (the dict itself is not emptied); then, if
`lot` and `price` are truthy (non-zero) and
`abs(etf_position + (lot if side == BUY else -lot)) < POSITION_LIMIT`,
a fresh-id order is created, submitted, and assigned into the set. -/
def reset_orders (nid : ℕ) (etf_position : ℤ) (order_set : OrderSet) (side : Side)
    (lot price : ℤ) : ResetResult :=
  let cancels := order_set.map (fun kv => Action.cancelOrder kv.1)
  if lot ≠ 0 ∧ price ≠ 0 ∧
      |etf_position + (if side = Side.buy then lot else -lot)| < POSITION_LIMIT then
    let base : Order := ⟨nid, price, lot, 0⟩
    ⟨nid + 1, insertKV order_set nid base, some base,
      cancels ++ [Action.insertOrder nid side price lot]⟩
  else
    ⟨nid, order_set, none, cancels⟩

/-- `AutoTrader.emergency_hedge`: set `is_hedging`, then submit one hedge
order — sell `position - 10` lots at `MIN_BID_NEAREST_TICK` if the net
position is positive, otherwise buy `abs(10 + position)` lots at
`MAX_ASK_NEAREST_TICK` — and record it in the corresponding futures set. -/
def emergency_hedge (s : TraderState) : TraderState × List Action :=
  if 0 < s.position then
    let order : Order := ⟨s.nextId, MIN_BID_NEAREST_TICK, s.position - 10, 0⟩
    ({s with
        is_hedging := true, nextId := s.nextId + 1,
        futures_asks := insertKV s.futures_asks order.id order},
      [Action.hedgeOrder order.id Side.ask order.price order.lot])
  else
    let order : Order := ⟨s.nextId, MAX_ASK_NEAREST_TICK, |10 + s.position|, 0⟩
    ({s with
        is_hedging := true, nextId := s.nextId + 1,
        futures_bids := insertKV s.futures_bids order.id order},
      [Action.hedgeOrder order.id Side.bid order.price order.lot])

/-- `AutoTrader.on_order_filled_message(client_order_id, price, volume)`.
A fill of a known bid (resp. ask) id adds (resp. subtracts) `volume` to
`etf_position` and `position`; the order stays in its set.  Then: if
`abs(etf_position) > HEDGED_THRESHOLD`, a hedge order for the difference
`etf_position - futures_position` is submitted; otherwise, a non-zero
`futures_position` is flattened with a hedge order. -/
def on_order_filled (s : TraderState) (client_order_id : ℕ) (_price volume : ℤ) :
    TraderState × List Action :=
  let s1 :=
    if containsKey s.etf_bids client_order_id then
      {s with etf_position := s.etf_position + volume, position := s.position + volume}
    else if containsKey s.etf_asks client_order_id then
      {s with etf_position := s.etf_position - volume, position := s.position - volume}
    else s
  if HEDGED_THRESHOLD < |s1.etf_position| then
    let lot_size := s1.etf_position - s1.futures_position
    if 0 < lot_size then
      let order : Order := ⟨s1.nextId, MAX_ASK_NEAREST_TICK, lot_size, 0⟩
      ({s1 with
          nextId := s1.nextId + 1,
          futures_bids := insertKV s1.futures_bids order.id order},
        [Action.hedgeOrder order.id Side.bid order.price order.lot])
    else
      let order : Order := ⟨s1.nextId, MIN_BID_NEAREST_TICK, -lot_size, 0⟩
      ({s1 with
          nextId := s1.nextId + 1,
          futures_asks := insertKV s1.futures_asks order.id order},
        [Action.hedgeOrder order.id Side.ask order.price order.lot])
  else
    if 0 < s1.futures_position then
      let order : Order := ⟨s1.nextId, MIN_BID_NEAREST_TICK, s1.futures_position, 0⟩
      ({s1 with
          nextId := s1.nextId + 1,
          futures_asks := insertKV s1.futures_asks order.id order},
        [Action.hedgeOrder order.id Side.ask order.price order.lot])
    else if s1.futures_position < 0 then
      let order : Order := ⟨s1.nextId, MAX_ASK_NEAREST_TICK, -s1.futures_position, 0⟩
      ({s1 with
          nextId := s1.nextId + 1,
          futures_bids := insertKV s1.futures_bids order.id order},
        [Action.hedgeOrder order.id Side.bid order.price order.lot])
    else (s1, [])

/-- `AutoTrader.on_hedge_filled_message(client_order_id, price, volume)`.
A fill of a known futures-bid (resp. futures-ask) id adds (resp. subtracts)
`volume` to `futures_position` and `position` and deletes the id from its
set; if `is_hedging` was set, a counter hedge order for the same `volume` in
the opposite direction is always submitted and `is_hedging` is cleared.
An unknown id changes nothing. -/
def on_hedge_filled (s : TraderState) (client_order_id : ℕ) (_price volume : ℤ) :
    TraderState × List Action :=
  if containsKey s.futures_bids client_order_id then
    let s1 := {s with
        futures_position := s.futures_position + volume,
        position := s.position + volume,
        futures_bids := eraseKV s.futures_bids client_order_id}
    if s1.is_hedging then
      let order : Order := ⟨s1.nextId, MIN_BID_NEAREST_TICK, volume, 0⟩
      ({s1 with
          nextId := s1.nextId + 1,
          futures_asks := insertKV s1.futures_asks order.id order,
          is_hedging := false},
        [Action.hedgeOrder order.id Side.ask order.price order.lot])
    else (s1, [])
  else if containsKey s.futures_asks client_order_id then
    let s1 := {s with
        futures_position := s.futures_position - volume,
        position := s.position - volume,
        futures_asks := eraseKV s.futures_asks client_order_id}
    if s1.is_hedging then
      let order : Order := ⟨s1.nextId, MAX_ASK_NEAREST_TICK, volume, 0⟩
      ({s1 with
          nextId := s1.nextId + 1,
          futures_bids := insertKV s1.futures_bids order.id order,
          is_hedging := false},
        [Action.hedgeOrder order.id Side.bid order.price order.lot])
    else (s1, [])
  else (s, [])

/-- `AutoTrader.on_order_status_message(client_order_id, fill_volume,
remaining_volume, fees)`: when `remaining_volume == 0` the id is deleted from
`etf_bids` if present there, else from `etf_asks` if present there. -/
def on_order_status (s : TraderState) (client_order_id : ℕ)
    (_fill_volume remaining_volume _fees : ℤ) : TraderState :=
  if remaining_volume = 0 then
    if containsKey s.etf_bids client_order_id then
      {s with etf_bids := eraseKV s.etf_bids client_order_id}
    else if containsKey s.etf_asks client_order_id then
      {s with etf_asks := eraseKV s.etf_asks client_order_id}
    else s
  else s

/-- `AutoTrader.on_error_message(client_order_id, error_message)`: a non-zero
id that is in `etf_bids` or `etf_asks` is handled as
`on_order_status_message(client_order_id, 0, 0, 0)`. -/
def on_error (s : TraderState) (client_order_id : ℕ) : TraderState :=
  if client_order_id ≠ 0 ∧
      (containsKey s.etf_bids client_order_id ∨ containsKey s.etf_asks client_order_id) then
    on_order_status s client_order_id 0 0 0
  else s

/-- One level's `distances[i]` inside `AutoTrader.calc_liquidity`:
`1 / abs(math.log(prices[i]) - math.log(avg_price))` when `prices[i] != 0`,
and `0` when `prices[i] == 0`.  `math.log` of a non-positive argument raises
`ValueError`, and `1 / 0.0` (a level priced exactly at `avg_price`, where the
two logs coincide) raises `ZeroDivisionError`; both are `none`. -/
noncomputable def level_distance (avg : ℚ) (p : ℤ) : Option ℝ :=
  if p = 0 then some 0
  else if p ≤ 0 ∨ avg ≤ 0 then none
  else if (p : ℚ) = avg then none
  else some (|Real.log (p : ℝ) - Real.log ((avg : ℚ) : ℝ)|)⁻¹

/-- The `distances` list of `AutoTrader.calc_liquidity`, one entry per price
level. -/
noncomputable def distances (avg : ℚ) : List ℤ → Option (List ℝ)
  | [] => some []
  | p :: ps => do
    let d ← level_distance avg p
    let rest ← distances avg ps
    pure (d :: rest)

/-- `AutoTrader.calc_liquidity(avg_price, prices, volumes)`:
`sum(distances[i] * volumes[i])` over the levels. -/
noncomputable def calc_liquidity (avg : ℚ) (prices volumes : List ℤ) : Option ℝ := do
  let ds ← distances avg prices
  pure (List.zipWith (fun d (v : ℤ) => d * (v : ℝ)) ds volumes).sum

/-- `AutoTrader.define_market_state`: `0` if either liquidity is zero,
otherwise a signed ratio of the bid and ask liquidities. -/
noncomputable def define_market_state (bid_liquidity ask_liquidity : ℝ) : ℝ :=
  if bid_liquidity = 0 ∨ ask_liquidity = 0 then 0
  else if ask_liquidity < bid_liquidity then bid_liquidity / ask_liquidity - 1
  else -(ask_liquidity / bid_liquidity) + 1

/-- `AutoTrader.calc_lot_size(liquidity, is_ask)`:
```
max_l = 2 * 10 ** 7
liquidity = min(liquidity, max_l)
position = -1*self.etf_position if is_ask else self.etf_position
p = math.sqrt(1 - (position+100)/200)
l = math.sqrt(1 - (max_l-liquidity)/max_l)
return math.floor(LOT_SIZE_ARBITARY_NUMBER * p * l)
```
`math.sqrt` raises `ValueError` on a negative argument (`none` here): there
is no clamping of either square root's argument in the source. -/
noncomputable def calc_lot_size (etf_position : ℤ) (liquidity : ℝ) (is_ask : Bool) :
    Option ℤ :=
  let max_l : ℝ := 2 * 10 ^ 7
  let liq := min liquidity max_l
  let position : ℤ := if is_ask then -etf_position else etf_position
  let parg : ℝ := 1 - ((position : ℝ) + 100) / 200
  let larg : ℝ := 1 - (max_l - liq) / max_l
  if parg < 0 ∨ larg < 0 then none
  else some ⌊(LOT_SIZE_ARBITARY_NUMBER : ℝ) * Real.sqrt parg * Real.sqrt larg⌋

/-- `AutoTrader.calc_price(avg_price, prices, liquidity, is_ask)`: decrement
the spread index for each liquidity threshold exceeded, add the (side-signed)
inventory adjustment, clamp to `[0, 4]`, and read the price at that level,
applying the emergency tick offset when the adjustment saturated at `±3`.
Returns `(price, spread)`; the price is `0` when the selected level's price
is `0`.  (The `avg_price` argument is unused in the source body.) -/
noncomputable def calc_price (_avg_price : ℚ) (etf_position : ℤ) (prices : List ℤ)
    (liquidity : ℝ) (is_ask : Bool) : ℤ × ℤ :=
  let spread1 := LIQUIDITY_THRESHOLDS.foldl
    (fun sp t => if ((t : ℚ) : ℝ) < liquidity then sp - 1 else sp) SPREAD
  let adj0 := POSITION_THRESHOLDS.foldl
    (fun a t => if t < etf_position then a + 1 else a) (-3)
  let adj := if is_ask then -adj0 else adj0
  let emergency_adj0 : ℤ := if adj = -3 then 3 else if adj = 3 then -3 else 0
  let emergency_adj := if is_ask then -emergency_adj0 else emergency_adj0
  let spread := min 4 (max 0 (spread1 + adj))
  let px := prices.getD spread.toNat 0
  (if px ≠ 0 then px + emergency_adj * TICK_SIZE_IN_CENTS else 0, spread)

/-- `AutoTrader.calc_lot_sizes(avg_price, ask_prices, ask_volumes, bid_prices,
bid_volumes)`: when both best prices are non-zero, recompute
`bid_liquidity`, `new_bid_lot`, `ask_liquidity` and `new_ask_lot` (in that
order); otherwise leave all four fields as they were. -/
noncomputable def calc_lot_sizes (s : TraderState) (avg : ℚ)
    (ask_prices ask_volumes bid_prices bid_volumes : List ℤ) : Option TraderState :=
  if ask_prices.getD 0 0 ≠ 0 ∧ bid_prices.getD 0 0 ≠ 0 then do
    let bl ← calc_liquidity avg bid_prices bid_volumes
    let nbl ← calc_lot_size s.etf_position bl false
    let al ← calc_liquidity avg ask_prices ask_volumes
    let nal ← calc_lot_size s.etf_position al true
    some {s with
      bid_liquidity := bl, new_bid_lot := nbl, ask_liquidity := al, new_ask_lot := nal}
  else some s

/-- `AutoTrader.on_order_book_update_message`.  An ETF book update does
nothing (`pass`).  A FUTURE book update first maintains the unhedged timer,
then either takes the emergency branch (`emergency_hedge`, reset the timer,
cancel-only `reset_orders` on both quote sets — the `0` passed for `side`
is `Side.SELL` in the `ready_trader_go` `IntEnum` — and return) or runs the
normal pipeline: `calc_lot_sizes`, `define_market_state`, `calc_price` for
both sides, then `reset_orders` for both sides.  `now` is
`self.event_loop.time()`; the second `time()` call in the emergency branch is
modelled as the same instant. -/
noncomputable def on_order_book_update (s : TraderState) (now : ℚ)
    (instrument : Instrument) (ask_prices ask_volumes bid_prices bid_volumes : List ℤ) :
    Option (TraderState × List Action) :=
  match instrument with
  | Instrument.etf => some (s, [])
  | Instrument.future =>
    let s1 := if 10 < |s.position| ∧ s.is_hedging = false then
        {s with unhedged_interval := now - s.unhedged_start}
      else
        {s with unhedged_start := now, unhedged_interval := 0}
    if UNHEDGED_LIMIT < s1.unhedged_interval ∧ s1.is_hedging = false then
      let eh := emergency_hedge s1
      let s3 := {eh.1 with unhedged_start := now, unhedged_interval := 0}
      let rb := reset_orders s3.nextId s3.etf_position s3.etf_bids Side.sell 0 0
      let s4 := {s3 with nextId := rb.nextId, etf_bids := rb.orders}
      let ra := reset_orders s4.nextId s4.etf_position s4.etf_asks Side.sell 0 0
      let s5 := {s4 with nextId := ra.nextId, etf_asks := ra.orders}
      some (s5, eh.2 ++ rb.actions ++ ra.actions)
    else do
      let avg : ℚ := ((ask_prices.getD 0 0 + bid_prices.getD 0 0 : ℤ) : ℚ) / 2
      let s6 ← calc_lot_sizes s1 avg ask_prices ask_volumes bid_prices bid_volumes
      let s7 := {s6 with
        market_state := define_market_state s6.bid_liquidity s6.ask_liquidity}
      let bp := calc_price avg s7.etf_position bid_prices s7.bid_liquidity false
      let ap := calc_price avg s7.etf_position ask_prices s7.ask_liquidity true
      let s8 := {s7 with new_bid_price := bp.1, new_ask_price := ap.1}
      let rb := reset_orders s8.nextId s8.etf_position s8.etf_bids Side.buy
        s8.new_bid_lot s8.new_bid_price
      let s9 := {s8 with nextId := rb.nextId, etf_bids := rb.orders, bid_base := rb.base}
      let ra := reset_orders s9.nextId s9.etf_position s9.etf_asks Side.sell
        s9.new_ask_lot s9.new_ask_price
      let s10 := {s9 with
        nextId := ra.nextId, etf_asks := ra.orders, ask_base := ra.base,
        bid_shifted := none, ask_shifted := none}
      some (s10, rb.actions ++ ra.actions)

/-! ### A concrete order book used by the event traces

Best ask 10100, best bid 9900 (so `avg = 10000`), a single populated level
per side with volume 1000000.  The resulting liquidity on each side is far
above every liquidity threshold and above the `max_l` cap. -/

/-- Trace fixture: ask prices `[10100, 0, 0, 0, 0]`. -/
def B0_ask_prices : List ℤ := [10100, 0, 0, 0, 0]

/-- Trace fixture: bid prices `[9900, 0, 0, 0, 0]`. -/
def B0_bid_prices : List ℤ := [9900, 0, 0, 0, 0]

/-- Trace fixture: level volumes `[1000000, 0, 0, 0, 0]` (used for both
sides). -/
def B0_volumes : List ℤ := [1000000, 0, 0, 0, 0]

/-- The eight-event scenario behind claim C1, run from the `__init__` state:
four FUTURE book updates on the fixture book (each requoting both sides; the
cancels sent to the exchange are advisory and none is confirmed, so every
previously quoted bid id stays in `etf_bids`), followed by full 28-lot fills
of the four resting bid orders (ids 1, 3, 5, 7).  Returns the state after
the last fill handler has run to completion. -/
noncomputable def C1trace : Option TraderState := do
  let r1 ← on_order_book_update initState 0 Instrument.future B0_ask_prices
    B0_volumes B0_bid_prices B0_volumes
  let r2 ← on_order_book_update r1.1 1 Instrument.future B0_ask_prices
    B0_volumes B0_bid_prices B0_volumes
  let r3 ← on_order_book_update r2.1 2 Instrument.future B0_ask_prices
    B0_volumes B0_bid_prices B0_volumes
  let r4 ← on_order_book_update r3.1 3 Instrument.future B0_ask_prices
    B0_volumes B0_bid_prices B0_volumes
  pure (on_order_filled (on_order_filled (on_order_filled
    (on_order_filled r4.1 1 9900 28).1 3 9900 28).1 5 9900 28).1 7 9900 28).1

/-! ### Association-list helper lemmas -/

theorem containsKey_iff (l : OrderSet) (k : ℕ) :
    containsKey l k = true ↔ ∃ kv ∈ l, kv.1 = k := by
  simp [containsKey, List.any_eq_true]

theorem containsKey_eraseKV (l : OrderSet) (k : ℕ) :
    containsKey (eraseKV l k) k = false := by
  rw [Bool.eq_false_iff]
  intro h
  rcases (containsKey_iff _ _).mp h with ⟨kv, hmem, hk⟩
  rw [eraseKV, List.mem_filter] at hmem
  simp only [hk] at hmem
  simp at hmem

theorem containsKey_insertKV_of_ne (l : OrderSet) (k : ℕ) (v : Order) (k2 : ℕ)
    (h : k2 ≠ k) : containsKey (insertKV l k v) k2 = containsKey l k2 := by
  rw [Bool.eq_iff_iff, containsKey_iff, containsKey_iff, insertKV]
  by_cases hc : containsKey l k = true
  · rw [if_pos hc]
    constructor
    · rintro ⟨kv, hmem, hk⟩
      rcases List.mem_map.mp hmem with ⟨kv0, hkv0, heq⟩
      by_cases hk0 : kv0.1 = k
      · rw [if_pos hk0] at heq
        rw [← heq] at hk
        exact absurd hk.symm h
      · rw [if_neg hk0] at heq
        exact ⟨kv0, hkv0, heq ▸ hk⟩
    · rintro ⟨kv, hmem, hk⟩
      refine ⟨kv, List.mem_map.mpr ⟨kv, hmem, ?_⟩, hk⟩
      rw [if_neg (by rw [hk]; exact h)]
  · rw [if_neg hc]
    constructor
    · rintro ⟨kv, hmem, hk⟩
      rcases List.mem_append.mp hmem with hl | hr
      · exact ⟨kv, hl, hk⟩
      · rcases List.mem_singleton.mp hr with rfl
        exact absurd hk.symm h
    · rintro ⟨kv, hmem, hk⟩
      exact ⟨kv, List.mem_append.mpr (Or.inl hmem), hk⟩

/-! ### Numeric helper lemmas for the real-valued pipeline -/

theorem log_diff_le_div (a b : ℝ) (hb : 0 < b) (hab : b ≤ a) :
    Real.log a - Real.log b ≤ (a - b) / b := by
  have ha : 0 < a := lt_of_lt_of_le hb hab
  have h1 := Real.log_le_sub_one_of_pos (div_pos ha hb)
  rw [Real.log_div (ne_of_gt ha) (ne_of_gt hb)] at h1
  have h2 : a / b - 1 = (a - b) / b := by field_simp
  linarith

theorem div_le_log_diff (a b : ℝ) (hb : 0 < b) (hab : b ≤ a) :
    (a - b) / a ≤ Real.log a - Real.log b := by
  have ha : 0 < a := lt_of_lt_of_le hb hab
  have h1 := Real.log_le_sub_one_of_pos (div_pos hb ha)
  rw [Real.log_div (ne_of_gt hb) (ne_of_gt ha)] at h1
  have h2 : b / a - 1 = -((a - b) / a) := by field_simp
  linarith

theorem floor_forty_sqrt_sqrt (a b : ℝ) (ha : 0 ≤ a) (_hb : 0 ≤ b) (n : ℕ)
    (h1 : (n : ℝ) ^ 2 ≤ 1600 * (a * b)) (h2 : 1600 * (a * b) < ((n : ℝ) + 1) ^ 2) :
    ⌊(40 : ℝ) * Real.sqrt a * Real.sqrt b⌋ = (n : ℤ) := by
  have hx : (40 : ℝ) * Real.sqrt a * Real.sqrt b = Real.sqrt (1600 * (a * b)) := by
    rw [Real.sqrt_mul (by norm_num : (0 : ℝ) ≤ 1600) (a * b), Real.sqrt_mul ha b]
    have h40 : Real.sqrt 1600 = 40 := by
      rw [show (1600 : ℝ) = 40 ^ 2 by norm_num]
      exact Real.sqrt_sq (by norm_num)
    rw [h40]; ring
  have hy : (0 : ℝ) ≤ 1600 * (a * b) := by nlinarith [sq_nonneg ((n : ℝ))]
  rw [hx, Int.floor_eq_iff]
  constructor
  · rw [show (((n : ℤ) : ℝ)) = ((n : ℝ)) by push_cast; ring]
    exact (Real.le_sqrt (Nat.cast_nonneg n) hy).mpr h1
  · rw [show (((n : ℤ) : ℝ) + 1) = ((n : ℝ) + 1) by push_cast; ring]
    exact (Real.sqrt_lt' (by positivity)).mpr h2

theorem sqrt_le_one_of_le_one {a : ℝ} (h : a ≤ 1) : Real.sqrt a ≤ 1 := by
  have := Real.sqrt_le_sqrt h
  rwa [Real.sqrt_one] at this

theorem level_distance_zero (avg : ℚ) : level_distance avg 0 = some 0 := by
  rw [level_distance, if_pos rfl]

theorem level_distance_bid :
    level_distance 10000 9900 = some ((Real.log 10000 - Real.log 9900)⁻¹) := by
  rw [level_distance]
  rw [if_neg (by norm_num), if_neg (by norm_num), if_neg (by norm_num)]
  congr 1
  have h9900 : ((9900 : ℤ) : ℝ) = (9900 : ℝ) := by norm_num
  have h10000 : (((10000 : ℚ)) : ℝ) = (10000 : ℝ) := by norm_num
  rw [h9900, h10000]
  have hlt : Real.log (9900 : ℝ) < Real.log 10000 :=
    Real.log_lt_log (by norm_num) (by norm_num)
  rw [abs_of_neg (by linarith), neg_sub]

theorem level_distance_ask :
    level_distance 10000 10100 = some ((Real.log 10100 - Real.log 10000)⁻¹) := by
  rw [level_distance]
  rw [if_neg (by norm_num), if_neg (by norm_num), if_neg (by norm_num)]
  congr 1
  have h10100 : ((10100 : ℤ) : ℝ) = (10100 : ℝ) := by norm_num
  have h10000 : (((10000 : ℚ)) : ℝ) = (10000 : ℝ) := by norm_num
  rw [h10100, h10000]
  have hlt : Real.log (10000 : ℝ) < Real.log 10100 :=
    Real.log_lt_log (by norm_num) (by norm_num)
  rw [abs_of_pos (by linarith)]

theorem inv_log_bid_bounds :
    (99 : ℝ) ≤ (Real.log 10000 - Real.log 9900)⁻¹ ∧
    (Real.log 10000 - Real.log 9900)⁻¹ ≤ 100 := by
  have h1 : (1 / 100 : ℝ) ≤ Real.log 10000 - Real.log 9900 := by
    have h := div_le_log_diff 10000 9900 (by norm_num) (by norm_num)
    norm_num at h
    linarith
  have h2 : Real.log 10000 - Real.log 9900 ≤ 1 / 99 := by
    have h := log_diff_le_div 10000 9900 (by norm_num) (by norm_num)
    norm_num at h
    linarith
  have hpos : (0 : ℝ) < Real.log 10000 - Real.log 9900 := by linarith
  constructor
  · have h := one_div_le_one_div_of_le hpos h2
    norm_num at h
    exact h
  · have h := one_div_le_one_div_of_le (by norm_num : (0 : ℝ) < 1 / 100) h1
    norm_num at h
    exact h

theorem inv_log_ask_bounds :
    (100 : ℝ) ≤ (Real.log 10100 - Real.log 10000)⁻¹ ∧
    (Real.log 10100 - Real.log 10000)⁻¹ ≤ 101 := by
  have h1 : (1 / 101 : ℝ) ≤ Real.log 10100 - Real.log 10000 := by
    have h := div_le_log_diff 10100 10000 (by norm_num) (by norm_num)
    norm_num at h
    linarith
  have h2 : Real.log 10100 - Real.log 10000 ≤ 1 / 100 := by
    have h := log_diff_le_div 10100 10000 (by norm_num) (by norm_num)
    norm_num at h
    linarith
  have hpos : (0 : ℝ) < Real.log 10100 - Real.log 10000 := by linarith
  constructor
  · have h := one_div_le_one_div_of_le hpos h2
    norm_num at h
    exact h
  · have h := one_div_le_one_div_of_le (by norm_num : (0 : ℝ) < 1 / 101) h1
    norm_num at h
    exact h

theorem calc_liquidity_bid_eval :
    calc_liquidity 10000 [9900, 0, 0, 0, 0] [1000000, 0, 0, 0, 0] =
      some ((Real.log 10000 - Real.log 9900)⁻¹ * 1000000) := by
  rw [calc_liquidity]
  simp [distances, level_distance_bid, level_distance_zero]

theorem calc_liquidity_ask_eval :
    calc_liquidity 10000 [10100, 0, 0, 0, 0] [1000000, 0, 0, 0, 0] =
      some ((Real.log 10100 - Real.log 10000)⁻¹ * 1000000) := by
  rw [calc_liquidity]
  simp [distances, level_distance_ask, level_distance_zero]

theorem bid_liquidity_bounds :
    (99000000 : ℝ) ≤ (Real.log 10000 - Real.log 9900)⁻¹ * 1000000 ∧
    (Real.log 10000 - Real.log 9900)⁻¹ * 1000000 ≤ 100000000 := by
  obtain ⟨h1, h2⟩ := inv_log_bid_bounds
  constructor <;> nlinarith

theorem ask_liquidity_bounds :
    (100000000 : ℝ) ≤ (Real.log 10100 - Real.log 10000)⁻¹ * 1000000 ∧
    (Real.log 10100 - Real.log 10000)⁻¹ * 1000000 ≤ 101000000 := by
  obtain ⟨h1, h2⟩ := inv_log_ask_bounds
  constructor <;> nlinarith

/-- Evaluation of `calc_lot_size` when the position is within the limit and
the liquidity is capped at `max_l` (so the second square root is 1):
the result is `⌊40 · √((100 − q)/200 · 2)⌋` where `q` is the side-signed
position, pinned by the square bracketing hypotheses. -/
theorem calc_lot_size_eval (pos : ℤ) (L : ℝ) (ia : Bool) (n : ℕ)
    (hL : 2 * 10 ^ 7 ≤ L)
    (hq : (if ia then -pos else pos) ≤ 100)
    (hlow : ((n : ℝ)) ^ 2 ≤ 8 * (100 - ((if ia then -pos else pos : ℤ) : ℝ)))
    (hhigh : (8 : ℝ) * (100 - ((if ia then -pos else pos : ℤ) : ℝ)) < ((n : ℝ) + 1) ^ 2) :
    calc_lot_size pos L ia = some (n : ℤ) := by
  have hqR : ((if ia then -pos else pos : ℤ) : ℝ) ≤ 100 := by exact_mod_cast hq
  rw [calc_lot_size]
  simp only [min_eq_right hL]
  have hlarg : (1 : ℝ) - (2 * 10 ^ 7 - 2 * 10 ^ 7) / (2 * 10 ^ 7) = 1 := by norm_num
  rw [hlarg]
  have hparg0 : (0 : ℝ) ≤ 1 - (((if ia then -pos else pos : ℤ) : ℝ) + 100) / 200 := by
    linarith
  rw [if_neg (by push_neg; exact ⟨hparg0, by norm_num⟩)]
  congr 1
  have h40 : ((LOT_SIZE_ARBITARY_NUMBER : ℤ) : ℝ) = 40 := by
    norm_num [LOT_SIZE_ARBITARY_NUMBER]
  rw [h40]
  have harith : (1600 : ℝ) *
      ((1 - (((if ia then -pos else pos : ℤ) : ℝ) + 100) / 200) * 1) =
      8 * (100 - ((if ia then -pos else pos : ℤ) : ℝ)) := by ring
  have h := floor_forty_sqrt_sqrt
    (1 - (((if ia then -pos else pos : ℤ) : ℝ) + 100) / 200) 1 hparg0 (by norm_num) n
    (by rw [harith]; exact hlow) (by rw [harith]; exact hhigh)
  exact h

/-- `calc_lot_size` on either side at position 0 with capped liquidity:
`⌊40·√(1/2)⌋ = 28`. -/
theorem calc_lot_size_pos0 (L : ℝ) (hL : 2 * 10 ^ 7 ≤ L) (ia : Bool) :
    calc_lot_size 0 L ia = some 28 := by
  have h := calc_lot_size_eval 0 L ia 28 hL (by cases ia <;> norm_num)
    (by cases ia <;> norm_num) (by cases ia <;> norm_num)
  simpa using h

/-- `calc_lot_size` on the bid side at position 50 with capped liquidity:
`⌊40·√(1/4)⌋ = 20`. -/
theorem calc_lot_size_pos50_bid (L : ℝ) (hL : 2 * 10 ^ 7 ≤ L) :
    calc_lot_size 50 L false = some 20 := by
  have h := calc_lot_size_eval 50 L false 20 hL (by norm_num)
    (by norm_num) (by norm_num)
  simpa using h

/-- `calc_lot_size` on the ask side at position 50 with capped liquidity:
`⌊40·√(3/4)⌋ = 34`. -/
theorem calc_lot_size_pos50_ask (L : ℝ) (hL : 2 * 10 ^ 7 ≤ L) :
    calc_lot_size 50 L true = some 34 := by
  have h := calc_lot_size_eval 50 L true 34 hL (by norm_num)
    (by norm_num) (by norm_num)
  simpa using h

theorem thresholds_lt (L : ℝ) (hL : (65000000 : ℝ) < L) :
    (((0.15 : ℚ) * 10 ^ LIQUIDITY_MAGNITUDE : ℚ) : ℝ) < L ∧
    (((0.4 : ℚ) * 10 ^ LIQUIDITY_MAGNITUDE : ℚ) : ℝ) < L ∧
    (((0.65 : ℚ) * 10 ^ LIQUIDITY_MAGNITUDE : ℚ) : ℝ) < L := by
  refine ⟨?_, ?_, ?_⟩
  · rw [show (((0.15 : ℚ) * 10 ^ LIQUIDITY_MAGNITUDE : ℚ) : ℝ) = 15000000 from by
      norm_num [LIQUIDITY_MAGNITUDE]]
    linarith
  · rw [show (((0.4 : ℚ) * 10 ^ LIQUIDITY_MAGNITUDE : ℚ) : ℝ) = 40000000 from by
      norm_num [LIQUIDITY_MAGNITUDE]]
    linarith
  · rw [show (((0.65 : ℚ) * 10 ^ LIQUIDITY_MAGNITUDE : ℚ) : ℝ) = 65000000 from by
      norm_num [LIQUIDITY_MAGNITUDE]]
    linarith

/-- `calc_price` for the bid side at position 0 on the fixture book with
deep liquidity: all three thresholds hit, spread index 0, price 9900. -/
theorem calc_price_bid0 (avg : ℚ) (L : ℝ)
    (h1 : (((0.15 : ℚ) * 10 ^ LIQUIDITY_MAGNITUDE : ℚ) : ℝ) < L)
    (h2 : (((0.4 : ℚ) * 10 ^ LIQUIDITY_MAGNITUDE : ℚ) : ℝ) < L)
    (h3 : (((0.65 : ℚ) * 10 ^ LIQUIDITY_MAGNITUDE : ℚ) : ℝ) < L) :
    calc_price avg 0 [9900, 0, 0, 0, 0] L false = (9900, 0) := by
  rw [calc_price, LIQUIDITY_THRESHOLDS]
  simp only [List.foldl, if_pos h1, if_pos h2, if_pos h3, POSITION_THRESHOLDS]
  norm_num [SPREAD, TICK_SIZE_IN_CENTS, List.getD]

/-- `calc_price` for the ask side at position 0 on the fixture book with
deep liquidity: spread index 0, price 10100. -/
theorem calc_price_ask0 (avg : ℚ) (L : ℝ)
    (h1 : (((0.15 : ℚ) * 10 ^ LIQUIDITY_MAGNITUDE : ℚ) : ℝ) < L)
    (h2 : (((0.4 : ℚ) * 10 ^ LIQUIDITY_MAGNITUDE : ℚ) : ℝ) < L)
    (h3 : (((0.65 : ℚ) * 10 ^ LIQUIDITY_MAGNITUDE : ℚ) : ℝ) < L) :
    calc_price avg 0 [10100, 0, 0, 0, 0] L true = (10100, 0) := by
  rw [calc_price, LIQUIDITY_THRESHOLDS]
  simp only [List.foldl, if_pos h1, if_pos h2, if_pos h3, POSITION_THRESHOLDS]
  norm_num [SPREAD, TICK_SIZE_IN_CENTS, List.getD]

/-- `calc_price` for the bid side at position 50: inventory adjustment +1
lifts the spread index to 1, where the fixture book has no level, so the
returned price is 0 ("do not quote"). -/
theorem calc_price_bid50 (avg : ℚ) (L : ℝ)
    (h1 : (((0.15 : ℚ) * 10 ^ LIQUIDITY_MAGNITUDE : ℚ) : ℝ) < L)
    (h2 : (((0.4 : ℚ) * 10 ^ LIQUIDITY_MAGNITUDE : ℚ) : ℝ) < L)
    (h3 : (((0.65 : ℚ) * 10 ^ LIQUIDITY_MAGNITUDE : ℚ) : ℝ) < L) :
    calc_price avg 50 [9900, 0, 0, 0, 0] L false = (0, 1) := by
  rw [calc_price, LIQUIDITY_THRESHOLDS]
  simp only [List.foldl, if_pos h1, if_pos h2, if_pos h3, POSITION_THRESHOLDS]
  norm_num [SPREAD, TICK_SIZE_IN_CENTS, List.getD]

/-- `calc_price` for the ask side at position 50: inventory adjustment -1,
clamped spread index 0, price 10100. -/
theorem calc_price_ask50 (avg : ℚ) (L : ℝ)
    (h1 : (((0.15 : ℚ) * 10 ^ LIQUIDITY_MAGNITUDE : ℚ) : ℝ) < L)
    (h2 : (((0.4 : ℚ) * 10 ^ LIQUIDITY_MAGNITUDE : ℚ) : ℝ) < L)
    (h3 : (((0.65 : ℚ) * 10 ^ LIQUIDITY_MAGNITUDE : ℚ) : ℝ) < L) :
    calc_price avg 50 [10100, 0, 0, 0, 0] L true = (10100, 0) := by
  rw [calc_price, LIQUIDITY_THRESHOLDS]
  simp only [List.foldl, if_pos h1, if_pos h2, if_pos h3, POSITION_THRESHOLDS]
  norm_num [SPREAD, TICK_SIZE_IN_CENTS, List.getD]

/-- Full evaluation of a FUTURE book update whose unhedged-timer trigger
fires: the result is exactly one hedge order followed by cancels for every
resting quote id, no inserts, and the hedging state entered.  (The book
arrays are irrelevant in this branch.) -/
theorem trigger_tick_eval (s : TraderState) (now : ℚ) (ap av bp bv : List ℤ)
    (hhedge : s.is_hedging = false) (hposbig : 10 < |s.position|)
    (htime : UNHEDGED_LIMIT < now - s.unhedged_start) :
    on_order_book_update s now Instrument.future ap av bp bv =
      some ({s with
          unhedged_start := now, unhedged_interval := 0,
          nextId := s.nextId + 1,
          futures_asks := if 0 < s.position then
              insertKV s.futures_asks s.nextId
                ⟨s.nextId, MIN_BID_NEAREST_TICK, s.position - 10, 0⟩
            else s.futures_asks,
          futures_bids := if 0 < s.position then s.futures_bids
            else insertKV s.futures_bids s.nextId
              ⟨s.nextId, MAX_ASK_NEAREST_TICK, |10 + s.position|, 0⟩,
          is_hedging := true},
        (if 0 < s.position then
            Action.hedgeOrder s.nextId Side.ask MIN_BID_NEAREST_TICK (s.position - 10)
          else
            Action.hedgeOrder s.nextId Side.bid MAX_ASK_NEAREST_TICK |10 + s.position|) ::
          (s.etf_bids.map (fun kv => Action.cancelOrder kv.1) ++
            s.etf_asks.map (fun kv => Action.cancelOrder kv.1))) := by
  by_cases hp : 0 < s.position
  · simp [on_order_book_update, emergency_hedge, reset_orders, hhedge, hposbig,
      htime, hp]
  · simp [on_order_book_update, emergency_hedge, reset_orders, hhedge, hposbig,
      htime, hp]

set_option maxHeartbeats 1600000 in
/-- Full evaluation of a FUTURE book update on the fixture book from a state
with `etf_position = 0` and `position = 0`: the normal pipeline runs and
quotes 28 lots at 9900 (bid) and 28 lots at 10100 (ask). -/
theorem tick_eval_pos0 (s : TraderState) (now : ℚ) (hetf : s.etf_position = 0)
    (hpos : s.position = 0) :
    on_order_book_update s now Instrument.future B0_ask_prices B0_volumes
        B0_bid_prices B0_volumes =
      some ({s with
          unhedged_start := now, unhedged_interval := 0,
          bid_liquidity := (Real.log 10000 - Real.log 9900)⁻¹ * 1000000,
          ask_liquidity := (Real.log 10100 - Real.log 10000)⁻¹ * 1000000,
          new_bid_lot := 28, new_ask_lot := 28,
          market_state := define_market_state
            ((Real.log 10000 - Real.log 9900)⁻¹ * 1000000)
            ((Real.log 10100 - Real.log 10000)⁻¹ * 1000000),
          new_bid_price := 9900, new_ask_price := 10100,
          nextId := s.nextId + 2,
          etf_bids := insertKV s.etf_bids s.nextId ⟨s.nextId, 9900, 28, 0⟩,
          etf_asks := insertKV s.etf_asks (s.nextId + 1) ⟨s.nextId + 1, 10100, 28, 0⟩,
          bid_base := some ⟨s.nextId, 9900, 28, 0⟩,
          ask_base := some ⟨s.nextId + 1, 10100, 28, 0⟩,
          bid_shifted := none, ask_shifted := none},
        (s.etf_bids.map (fun kv => Action.cancelOrder kv.1) ++
          [Action.insertOrder s.nextId Side.buy 9900 28]) ++
        (s.etf_asks.map (fun kv => Action.cancelOrder kv.1) ++
          [Action.insertOrder (s.nextId + 1) Side.sell 10100 28])) := by
  obtain ⟨hbl1, hbl2⟩ := bid_liquidity_bounds
  obtain ⟨hal1, hal2⟩ := ask_liquidity_bounds
  have hbidlot := calc_lot_size_pos0 ((Real.log 10000 - Real.log 9900)⁻¹ * 1000000)
    (by linarith) false
  have hasklot := calc_lot_size_pos0 ((Real.log 10100 - Real.log 10000)⁻¹ * 1000000)
    (by linarith) true
  obtain ⟨ht1b, ht2b, ht3b⟩ := thresholds_lt
    ((Real.log 10000 - Real.log 9900)⁻¹ * 1000000) (by linarith)
  obtain ⟨ht1a, ht2a, ht3a⟩ := thresholds_lt
    ((Real.log 10100 - Real.log 10000)⁻¹ * 1000000) (by linarith)
  have hbidprice := calc_price_bid0 10000
    ((Real.log 10000 - Real.log 9900)⁻¹ * 1000000) ht1b ht2b ht3b
  have haskprice := calc_price_ask0 10000
    ((Real.log 10100 - Real.log 10000)⁻¹ * 1000000) ht1a ht2a ht3a
  simp only [on_order_book_update, hetf, hpos, B0_ask_prices, B0_bid_prices]
  norm_num [UNHEDGED_LIMIT]
  rw [calc_lot_sizes]
  norm_num [B0_volumes]
  simp only [calc_liquidity_bid_eval, hbidlot, calc_liquidity_ask_eval, hasklot,
    hbidprice, haskprice, Option.bind_eq_bind, Option.bind_some, Option.some_bind]
  simp +decide only [reset_orders, POSITION_LIMIT, insertKV]
  norm_num

set_option maxHeartbeats 1600000 in
/-- Full evaluation of a FUTURE book update on the fixture book from a state
with `etf_position = 50` that is in the hedging state: the normal quoting
pipeline still runs — the bid side quotes nothing (its selected level is
empty) but the ask side inserts a 34-lot order at 10100, even though the
emergency hedge has not been confirmed yet. -/
theorem tick_eval_pos50_hedging (s : TraderState) (now : ℚ)
    (hetf : s.etf_position = 50) (hhedge : s.is_hedging = true) :
    on_order_book_update s now Instrument.future B0_ask_prices B0_volumes
        B0_bid_prices B0_volumes =
      some ({s with
          unhedged_start := now, unhedged_interval := 0,
          bid_liquidity := (Real.log 10000 - Real.log 9900)⁻¹ * 1000000,
          ask_liquidity := (Real.log 10100 - Real.log 10000)⁻¹ * 1000000,
          new_bid_lot := 20, new_ask_lot := 34,
          market_state := define_market_state
            ((Real.log 10000 - Real.log 9900)⁻¹ * 1000000)
            ((Real.log 10100 - Real.log 10000)⁻¹ * 1000000),
          new_bid_price := 0, new_ask_price := 10100,
          nextId := s.nextId + 1,
          etf_asks := insertKV s.etf_asks s.nextId ⟨s.nextId, 10100, 34, 0⟩,
          bid_base := none,
          ask_base := some ⟨s.nextId, 10100, 34, 0⟩,
          bid_shifted := none, ask_shifted := none},
        s.etf_bids.map (fun kv => Action.cancelOrder kv.1) ++
        (s.etf_asks.map (fun kv => Action.cancelOrder kv.1) ++
          [Action.insertOrder s.nextId Side.sell 10100 34])) := by
  obtain ⟨hbl1, hbl2⟩ := bid_liquidity_bounds
  obtain ⟨hal1, hal2⟩ := ask_liquidity_bounds
  have hbidlot := calc_lot_size_pos50_bid ((Real.log 10000 - Real.log 9900)⁻¹ * 1000000)
    (by linarith)
  have hasklot := calc_lot_size_pos50_ask ((Real.log 10100 - Real.log 10000)⁻¹ * 1000000)
    (by linarith)
  obtain ⟨ht1b, ht2b, ht3b⟩ := thresholds_lt
    ((Real.log 10000 - Real.log 9900)⁻¹ * 1000000) (by linarith)
  obtain ⟨ht1a, ht2a, ht3a⟩ := thresholds_lt
    ((Real.log 10100 - Real.log 10000)⁻¹ * 1000000) (by linarith)
  have hbidprice := calc_price_bid50 10000
    ((Real.log 10000 - Real.log 9900)⁻¹ * 1000000) ht1b ht2b ht3b
  have haskprice := calc_price_ask50 10000
    ((Real.log 10100 - Real.log 10000)⁻¹ * 1000000) ht1a ht2a ht3a
  simp only [on_order_book_update, hetf, hhedge, B0_ask_prices, B0_bid_prices]
  norm_num [UNHEDGED_LIMIT]
  rw [calc_lot_sizes]
  norm_num [B0_volumes]
  simp only [calc_liquidity_bid_eval, hbidlot, calc_liquidity_ask_eval, hasklot,
    hbidprice, haskprice, Option.bind_eq_bind, Option.bind_some, Option.some_bind]
  simp +decide only [reset_orders, POSITION_LIMIT, insertKV]
  norm_num

/-! ### Claim C4 -/

/-- Claim C4: for any nonnegative liquidity and any inventory whose absolute
value is at most the position limit, `calc_lot_size` succeeds and returns an
integer in `[0, K]` for `K = LOT_SIZE_ARBITARY_NUMBER = 40`, and it returns
exactly 0 when the inventory equals the position limit on the
risk-increasing side (`+limit` for the bid side, `-limit` for the ask
side). -/
theorem C4_lot_size_bounds (pos : ℤ) (liquidity : ℝ) (is_ask : Bool)
    (hliq : 0 ≤ liquidity) (hpos : |pos| ≤ POSITION_LIMIT) :
    (∃ n : ℤ, calc_lot_size pos liquidity is_ask = some n ∧ 0 ≤ n ∧
      n ≤ LOT_SIZE_ARBITARY_NUMBER) ∧
    (pos = POSITION_LIMIT → is_ask = false →
      calc_lot_size pos liquidity is_ask = some 0) ∧
    (pos = -POSITION_LIMIT → is_ask = true →
      calc_lot_size pos liquidity is_ask = some 0) := by
  have hq : |(if is_ask then -pos else pos)| ≤ 100 := by
    cases is_ask <;> simpa [abs_neg] using hpos
  have hq1 : -100 ≤ (if is_ask then -pos else pos) := (abs_le.mp hq).1
  have hq2 : (if is_ask then -pos else pos) ≤ 100 := (abs_le.mp hq).2
  have hparg0 : (0 : ℝ) ≤ 1 - (((if is_ask then -pos else pos) : ℤ) + 100 : ℝ) / 200 := by
    have : ((if is_ask then -pos else pos : ℤ) : ℝ) ≤ 100 := by exact_mod_cast hq2
    linarith
  have hparg1 : 1 - (((if is_ask then -pos else pos) : ℤ) + 100 : ℝ) / 200 ≤ 1 := by
    have : (-100 : ℝ) ≤ ((if is_ask then -pos else pos : ℤ) : ℝ) := by exact_mod_cast hq1
    linarith
  have hmin0 : (0 : ℝ) ≤ min liquidity (2 * 10 ^ 7) :=
    le_min hliq (by norm_num)
  have hmin1 : min liquidity (2 * 10 ^ 7) ≤ 2 * 10 ^ 7 := min_le_right _ _
  have hlarg0 : (0 : ℝ) ≤ 1 - (2 * 10 ^ 7 - min liquidity (2 * 10 ^ 7)) / (2 * 10 ^ 7) := by
    rw [sub_nonneg, div_le_one (by norm_num)]
    linarith
  have hlarg1 : 1 - (2 * 10 ^ 7 - min liquidity (2 * 10 ^ 7)) / (2 * 10 ^ 7) ≤ 1 := by
    have : (0 : ℝ) ≤ (2 * 10 ^ 7 - min liquidity (2 * 10 ^ 7)) / (2 * 10 ^ 7) := by
      apply div_nonneg _ (by norm_num)
      linarith
    linarith
  refine ⟨?_, ?_, ?_⟩
  · refine ⟨⌊(LOT_SIZE_ARBITARY_NUMBER : ℝ) * Real.sqrt
      (1 - (((if is_ask then -pos else pos) : ℤ) + 100 : ℝ) / 200) * Real.sqrt
      (1 - (2 * 10 ^ 7 - min liquidity (2 * 10 ^ 7)) / (2 * 10 ^ 7))⌋, ?_, ?_, ?_⟩
    · rw [calc_lot_size]
      rw [if_neg]
      push_neg
      exact ⟨hparg0, hlarg0⟩
    · apply Int.floor_nonneg.mpr
      have h40 : ((LOT_SIZE_ARBITARY_NUMBER : ℤ) : ℝ) = 40 := by
        norm_num [LOT_SIZE_ARBITARY_NUMBER]
      rw [h40]
      positivity
    · have h40 : ((LOT_SIZE_ARBITARY_NUMBER : ℤ) : ℝ) = 40 := by
        norm_num [LOT_SIZE_ARBITARY_NUMBER]
      have hs1 := sqrt_le_one_of_le_one hparg1
      have hs2 := sqrt_le_one_of_le_one hlarg1
      have hn1 := Real.sqrt_nonneg
        (1 - (((if is_ask then -pos else pos) : ℤ) + 100 : ℝ) / 200)
      have hn2 := Real.sqrt_nonneg
        (1 - (2 * 10 ^ 7 - min liquidity (2 * 10 ^ 7)) / (2 * 10 ^ 7))
      have hle : (LOT_SIZE_ARBITARY_NUMBER : ℝ) * Real.sqrt
          (1 - (((if is_ask then -pos else pos) : ℤ) + 100 : ℝ) / 200) * Real.sqrt
          (1 - (2 * 10 ^ 7 - min liquidity (2 * 10 ^ 7)) / (2 * 10 ^ 7)) ≤
          ((LOT_SIZE_ARBITARY_NUMBER : ℤ) : ℝ) := by
        rw [h40]
        nlinarith
      calc ⌊(LOT_SIZE_ARBITARY_NUMBER : ℝ) * Real.sqrt
            (1 - (((if is_ask then -pos else pos) : ℤ) + 100 : ℝ) / 200) * Real.sqrt
            (1 - (2 * 10 ^ 7 - min liquidity (2 * 10 ^ 7)) / (2 * 10 ^ 7))⌋ ≤
          ⌊((LOT_SIZE_ARBITARY_NUMBER : ℤ) : ℝ)⌋ := Int.floor_mono hle
        _ = LOT_SIZE_ARBITARY_NUMBER := Int.floor_intCast _
  · rintro rfl rfl
    rw [calc_lot_size]
    simp only [if_false, Bool.false_eq_true]
    rw [if_neg]
    · congr 1
      rw [show (1 : ℝ) - (((POSITION_LIMIT : ℤ) : ℝ) + 100) / 200 = 0 by
        norm_num [POSITION_LIMIT]]
      rw [Real.sqrt_zero, mul_zero, zero_mul, Int.floor_zero]
    · push_neg
      constructor
      · rw [show (1 : ℝ) - (((POSITION_LIMIT : ℤ) : ℝ) + 100) / 200 = 0 by
          norm_num [POSITION_LIMIT]]
      · simpa using hlarg0
  · rintro rfl rfl
    rw [calc_lot_size]
    simp only [if_true]
    rw [if_neg]
    · congr 1
      rw [show (1 : ℝ) - (((-(-POSITION_LIMIT) : ℤ) : ℝ) + 100) / 200 = 0 by
        norm_num [POSITION_LIMIT]]
      rw [Real.sqrt_zero, mul_zero, zero_mul, Int.floor_zero]
    · push_neg
      constructor
      · rw [show (1 : ℝ) - (((-(-POSITION_LIMIT) : ℤ) : ℝ) + 100) / 200 = 0 by
          norm_num [POSITION_LIMIT]]
      · simpa using hlarg0

/-- Claim C4, witness:  `calc_lot_size` at the position limit on the bid
side with zero liquidity, through `C4_lot_size_bounds`. -/
theorem C4_lot_size_witness :
    (∃ n : ℤ, calc_lot_size 100 0 false = some n ∧ 0 ≤ n ∧
      n ≤ LOT_SIZE_ARBITARY_NUMBER) ∧
    calc_lot_size 100 0 false = some 0 := by
  have h := C4_lot_size_bounds 100 0 false le_rfl (by norm_num [POSITION_LIMIT])
  exact ⟨h.1, h.2.1 (by norm_num [POSITION_LIMIT]) rfl⟩

/-! ### Claim C5 -/

/-- Claim C5: code_bug evaluation.  The spec requires the argument of the
square root in `calc_lot_size` to be clamped to `[0, 1]` so that any
inventory — including one beyond the position limit — yields lot size 0; the
code performs no clamping, so for `etf_position = 101` on the bid side (and
symmetrically `-101` on the ask side) the argument `1 - (pos+100)/200` is
negative and `math.sqrt` raises `ValueError` (modelled as `none`) instead of
the function returning 0. -/
theorem C5_sqrt_domain_error :
    calc_lot_size 101 0 false = none ∧ calc_lot_size (-101) 0 true = none := by
  constructor <;>
  · rw [calc_lot_size]
    rw [if_pos]
    norm_num

/-! ### Claim C6 -/

/-- Claim C6: code_bug evaluation.  The spec requires a level priced exactly
at the mid price `avg` to be special-cased to a zero distance contribution;
`calc_liquidity` instead computes `1 / abs(log(price) - log(avg))` with a
zero denominator and raises `ZeroDivisionError` (modelled as `none`).
Failing input: `avg = 100` (best bid = best ask = 100) with bid book
`prices = [100, 0, 0, 0, 0]`, `volumes = [1, 0, 0, 0, 0]`. -/
theorem C6_liquidity_zero_denominator_error :
    calc_liquidity 100 [100, 0, 0, 0, 0] [1, 0, 0, 0, 0] = none := by
  rw [calc_liquidity, distances, level_distance]
  norm_num

/-! ### Claim C3 -/

/-- Claim C3, counterexample.  The claim states that the newly inserted order
is recorded as "the sole resting order" for the side.  In the code,
`reset_orders` sends cancels but never removes the cancelled ids from the
dict, so after a requote the old id is still present alongside the new one:
starting from a set holding order id 1, a requote that does insert (lot 10,
price 9900, position 0) leaves a set whose keys are `[1, 2]`, not `[2]`. -/
theorem C3_not_sole_resting_order :
    (reset_orders 2 0 [(1, ⟨1, 9900, 10, 0⟩)] Side.buy 10 9900).base =
      some ⟨2, 9900, 10, 0⟩ ∧
    (reset_orders 2 0 [(1, ⟨1, 9900, 10, 0⟩)] Side.buy 10 9900).orders.map Prod.fst =
      [1, 2] ∧
    (reset_orders 2 0 [(1, ⟨1, 9900, 10, 0⟩)] Side.buy 10 9900).orders.map Prod.fst ≠
      [2] := by
  refine ⟨by decide, by decide, by decide⟩

/-- Claim C3 (amended): for nonnegative targets and a fresh id counter,
`reset_orders` issues a cancel for every id currently in the side's set, and
then inserts a new order with a fresh id if and only if the target lot is
positive, the target price is positive, and `|position + signed lot|` is
strictly below the position limit; the new order is *added to* the side's
set (the cancelled ids stay in the set until their zero-remaining status or
error event removes them) rather than becoming its sole element; when no
insert happens the set is returned unchanged. -/
theorem C3_reset_orders_amended (nid : ℕ) (pos : ℤ) (order_set : OrderSet)
    (side : Side) (lot price : ℤ) (hlot : 0 ≤ lot) (hprice : 0 ≤ price)
    (hfresh : containsKey order_set nid = false) :
    (reset_orders nid pos order_set side lot price).actions =
      order_set.map (fun kv => Action.cancelOrder kv.1) ++
        (if 0 < lot ∧ 0 < price ∧
            |pos + (if side = Side.buy then lot else -lot)| < POSITION_LIMIT then
          [Action.insertOrder nid side price lot] else []) ∧
    ((0 < lot ∧ 0 < price ∧
        |pos + (if side = Side.buy then lot else -lot)| < POSITION_LIMIT) →
      (reset_orders nid pos order_set side lot price).orders =
          order_set ++ [(nid, ⟨nid, price, lot, 0⟩)] ∧
        (reset_orders nid pos order_set side lot price).base =
          some ⟨nid, price, lot, 0⟩ ∧
        (reset_orders nid pos order_set side lot price).nextId = nid + 1) ∧
    (¬(0 < lot ∧ 0 < price ∧
        |pos + (if side = Side.buy then lot else -lot)| < POSITION_LIMIT) →
      (reset_orders nid pos order_set side lot price).orders = order_set ∧
        (reset_orders nid pos order_set side lot price).base = none ∧
        (reset_orders nid pos order_set side lot price).actions =
          order_set.map (fun kv => Action.cancelOrder kv.1)) := by
  have hiff : (lot ≠ 0 ∧ price ≠ 0 ∧
      |pos + (if side = Side.buy then lot else -lot)| < POSITION_LIMIT) ↔
      (0 < lot ∧ 0 < price ∧
      |pos + (if side = Side.buy then lot else -lot)| < POSITION_LIMIT) := by
    constructor
    · rintro ⟨h1, h2, h3⟩
      exact ⟨lt_of_le_of_ne hlot (Ne.symm h1), lt_of_le_of_ne hprice (Ne.symm h2), h3⟩
    · rintro ⟨h1, h2, h3⟩
      exact ⟨ne_of_gt h1, ne_of_gt h2, h3⟩
  by_cases hcond : 0 < lot ∧ 0 < price ∧
      |pos + (if side = Side.buy then lot else -lot)| < POSITION_LIMIT
  · have hc : lot ≠ 0 ∧ price ≠ 0 ∧
        |pos + (if side = Side.buy then lot else -lot)| < POSITION_LIMIT :=
      hiff.mpr hcond
    refine ⟨?_, fun _ => ⟨?_, ?_, ?_⟩, fun hn => absurd hcond hn⟩ <;>
      simp [reset_orders, if_pos hc, if_pos hcond, insertKV, hfresh]
  · have hc : ¬(lot ≠ 0 ∧ price ≠ 0 ∧
        |pos + (if side = Side.buy then lot else -lot)| < POSITION_LIMIT) :=
      fun h => hcond (hiff.mp h)
    refine ⟨?_, fun h => absurd h hcond, fun _ => ⟨?_, ?_, ?_⟩⟩ <;>
      simp [reset_orders, if_neg hc, if_neg hcond]

/-- Claim C3, witness: a concrete requote (position 0, lot 7, price 5000,
one stale order id 1 resting, fresh id 5) through `C3_reset_orders_amended`. -/
theorem C3_reset_orders_witness :
    (reset_orders 5 0 [(1, ⟨1, 5000, 10, 0⟩)] Side.buy 7 5000).actions =
      [Action.cancelOrder 1, Action.insertOrder 5 Side.buy 5000 7] ∧
    (reset_orders 5 0 [(1, ⟨1, 5000, 10, 0⟩)] Side.buy 7 5000).orders =
      [(1, ⟨1, 5000, 10, 0⟩), (5, ⟨5, 5000, 7, 0⟩)] := by
  have h := C3_reset_orders_amended 5 0 [(1, ⟨1, 5000, 10, 0⟩)] Side.buy 7 5000
    (by norm_num) (by norm_num) (by decide)
  obtain ⟨hacts, hins, -⟩ := h
  have hcond : (0 : ℤ) < 7 ∧ (0 : ℤ) < 5000 ∧
      |(0 : ℤ) + (if Side.buy = Side.buy then (7 : ℤ) else -7)| < POSITION_LIMIT := by
    refine ⟨by norm_num, by norm_num, by simp [POSITION_LIMIT]⟩
  obtain ⟨horders, -, -⟩ := hins hcond
  rw [hacts, if_pos hcond, horders]
  exact ⟨rfl, rfl⟩

/-! ### Claim C7 -/

/-- Claim C7, counterexample.  State: emergency-hedging (`is_hedging`) with
net position 50 and the emergency sell order (id 5, 40 lots) resting in
`futures_asks`.  Its fill of 40 lots brings the net position to 10 — it does
*not* move the inventory past zero — yet the handler still submits a
corrective counter-hedge (buy 40 lots at `MAX_ASK_NEAREST_TICK`).  The
claimed "counter-hedge if and only if the fill overshoots" is false: the
code counter-hedges unconditionally whenever it is in the hedging state. -/
theorem C7_counter_hedge_without_overshoot :
    0 < (on_hedge_filled {initState with
        position := 50,
        futures_asks := [(5, ⟨5, 100, 40, 0⟩)], nextId := 6,
        is_hedging := true} 5 100 40).1.position ∧
    (on_hedge_filled {initState with
        position := 50,
        futures_asks := [(5, ⟨5, 100, 40, 0⟩)], nextId := 6,
        is_hedging := true} 5 100 40).2 =
      [Action.hedgeOrder 6 Side.bid MAX_ASK_NEAREST_TICK 40] := by
  refine ⟨by decide, by decide⟩

/-- Claim C7 (amended): when a hedge fill is confirmed for an id resting in
exactly one futures order set, the handler always returns to the normal
state (`is_hedging` becomes false), and — if it was in the hedging state — it
always submits one corrective counter-hedge for the full fill volume in the
opposite direction at the extreme tick price, regardless of whether the fill
moved the net inventory past zero; when it was not hedging, no order is
submitted. -/
theorem C7_counter_hedge_amended (s : TraderState) (id : ℕ) (price volume : ℤ)
    (hone : (containsKey s.futures_bids id = true ∧
        containsKey s.futures_asks id = false) ∨
      (containsKey s.futures_asks id = true ∧
        containsKey s.futures_bids id = false)) :
    (on_hedge_filled s id price volume).1.is_hedging = false ∧
    (on_hedge_filled s id price volume).2 =
      (if s.is_hedging then
        (if containsKey s.futures_bids id then
          [Action.hedgeOrder s.nextId Side.ask MIN_BID_NEAREST_TICK volume]
        else [Action.hedgeOrder s.nextId Side.bid MAX_ASK_NEAREST_TICK volume])
      else []) ∧
    (on_hedge_filled s id price volume).1.position =
      (if containsKey s.futures_bids id then s.position + volume
        else s.position - volume) := by
  rcases hone with ⟨hin, hout⟩ | ⟨hin, hout⟩
  · cases hh : s.is_hedging <;>
      simp [on_hedge_filled, hin, hout, hh]
  · cases hh : s.is_hedging <;>
      simp [on_hedge_filled, hin, hout, hh]

/-- Claim C7, witness: a concrete hedging-state fill (emergency buy order
id 3, 25 lots, net position -60) through `C7_counter_hedge_amended`. -/
theorem C7_counter_hedge_witness :
    (on_hedge_filled {initState with
        position := -60,
        futures_bids := [(3, ⟨3, MAX_ASK_NEAREST_TICK, 25, 0⟩)], nextId := 4,
        is_hedging := true} 3 100 25).1.is_hedging = false ∧
    (on_hedge_filled {initState with
        position := -60,
        futures_bids := [(3, ⟨3, MAX_ASK_NEAREST_TICK, 25, 0⟩)], nextId := 4,
        is_hedging := true} 3 100 25).2 =
      [Action.hedgeOrder 4 Side.ask MIN_BID_NEAREST_TICK 25] ∧
    (on_hedge_filled {initState with
        position := -60,
        futures_bids := [(3, ⟨3, MAX_ASK_NEAREST_TICK, 25, 0⟩)], nextId := 4,
        is_hedging := true} 3 100 25).1.position = -35 := by
  have h := C7_counter_hedge_amended {initState with
      position := -60,
      futures_bids := [(3, ⟨3, MAX_ASK_NEAREST_TICK, 25, 0⟩)], nextId := 4,
      is_hedging := true} 3 100 25 (Or.inl ⟨by decide, by decide⟩)
  obtain ⟨h1, h2, h3⟩ := h
  refine ⟨h1, ?_, ?_⟩
  · rw [h2]; decide
  · rw [h3]; decide

/-! ### Claim C8 -/

/-- Claim C8, counterexample.  A primary fill of 20 lots (bid order id 1)
while both `etf_position` and `futures_position` are 0: the handler issues
*no* hedge order at all (the active code hedges only when
`|etf_position| > HEDGED_THRESHOLD = 100`, or to flatten a non-zero
`futures_position`; the fractional-hedge logic the claim describes exists
only in commented-out code).  The hedge position stays 0 instead of moving
toward a target. -/
theorem C8_no_hedge_order_on_20_lot_fill :
    (on_order_filled {initState with
        etf_bids := [(1, ⟨1, 9900, 20, 0⟩)],
        nextId := 2} 1 9900 20).2 = [] ∧
    (on_order_filled {initState with
        etf_bids := [(1, ⟨1, 9900, 20, 0⟩)],
        nextId := 2} 1 9900 20).1.etf_position = 20 ∧
    (on_order_filled {initState with
        etf_bids := [(1, ⟨1, 9900, 20, 0⟩)],
        nextId := 2} 1 9900 20).1.futures_position = 0 := by
  refine ⟨by decide, by decide, by decide⟩

/-- Claim C8 (amended): a confirmed primary-instrument bid fill updates
`etf_position` and `position` by the fill volume, and — as long as the
resulting `|etf_position|` does not exceed `HEDGED_THRESHOLD` and the hedge
position is 0 — submits no hedge order at all and leaves every other field
unchanged. -/
theorem C8_no_hedge_on_fill_amended (s : TraderState) (id : ℕ) (price volume : ℤ)
    (hbid : containsKey s.etf_bids id = true)
    (hpos : |s.etf_position + volume| ≤ HEDGED_THRESHOLD)
    (hfut : s.futures_position = 0) :
    on_order_filled s id price volume =
      ({s with
          etf_position := s.etf_position + volume,
          position := s.position + volume}, []) := by
  have hnot : ¬(HEDGED_THRESHOLD < |s.etf_position + volume|) := not_lt.mpr hpos
  simp [on_order_filled, hbid, hfut, hnot]

/-- Claim C8, witness: the claim's own scenario (fill of 20 lots from flat)
through `C8_no_hedge_on_fill_amended`. -/
theorem C8_no_hedge_on_fill_witness :
    on_order_filled {initState with
        etf_bids := [(1, ⟨1, 9900, 20, 0⟩)],
        nextId := 2} 1 9900 20 =
      ({{initState with etf_bids := [(1, ⟨1, 9900, 20, 0⟩)], nextId := 2} with
          etf_position := (0 : ℤ) + 20, position := (0 : ℤ) + 20}, []) := by
  exact C8_no_hedge_on_fill_amended _ 1 9900 20 (by decide)
    (by simp [initState, HEDGED_THRESHOLD]) (by simp [initState])

/-! ### Claim C9 -/

/-- Claim C9: after any `on_order_status_message` with zero remaining volume,
and after any `on_error_message` whose non-zero order id is present in a
resting quote set, that id is absent from both `etf_bids` and `etf_asks`.
Holds under the structural invariant that an id is never resting on both
sides at once (ids are drawn from a strictly increasing counter and each is
only ever assigned into one set). -/
theorem C9_resting_set_consistency (s : TraderState) (id : ℕ)
    (hdisj : ¬(containsKey s.etf_bids id = true ∧ containsKey s.etf_asks id = true)) :
    (∀ fill_volume fees : ℤ,
      containsKey (on_order_status s id fill_volume 0 fees).etf_bids id = false ∧
      containsKey (on_order_status s id fill_volume 0 fees).etf_asks id = false) ∧
    ((id ≠ 0 ∧ (containsKey s.etf_bids id = true ∨ containsKey s.etf_asks id = true)) →
      containsKey (on_error s id).etf_bids id = false ∧
      containsKey (on_error s id).etf_asks id = false) := by
  have hstatus : ∀ fill_volume fees : ℤ,
      containsKey (on_order_status s id fill_volume 0 fees).etf_bids id = false ∧
      containsKey (on_order_status s id fill_volume 0 fees).etf_asks id = false := by
    intro fv fees
    by_cases hb : containsKey s.etf_bids id = true
    · have ha : containsKey s.etf_asks id = false := by
        cases ha : containsKey s.etf_asks id
        · rfl
        · exact absurd ⟨hb, ha⟩ hdisj
      simp [on_order_status, hb, containsKey_eraseKV, ha]
    · rw [Bool.not_eq_true] at hb
      by_cases ha : containsKey s.etf_asks id = true
      · simp [on_order_status, hb, ha, containsKey_eraseKV]
      · rw [Bool.not_eq_true] at ha
        simp [on_order_status, hb, ha]
  refine ⟨hstatus, fun hknown => ?_⟩
  rcases hknown with ⟨hnz, hmem⟩
  rw [on_error, if_pos ⟨hnz, by simpa using hmem⟩]
  exact hstatus 0 0

/-- Claim C9, witness: order id 3 resting on the bid side; both the
zero-remaining status event and the error event remove it, via
`C9_resting_set_consistency`. -/
theorem C9_resting_set_witness :
    (containsKey (on_order_status {initState with
        etf_bids := [(3, ⟨3, 9900, 5, 0⟩)], nextId := 4} 3 0 0 0).etf_bids 3 = false ∧
      containsKey (on_order_status {initState with
        etf_bids := [(3, ⟨3, 9900, 5, 0⟩)], nextId := 4} 3 0 0 0).etf_asks 3 = false) ∧
    (containsKey (on_error {initState with
        etf_bids := [(3, ⟨3, 9900, 5, 0⟩)], nextId := 4} 3).etf_bids 3 = false ∧
      containsKey (on_error {initState with
        etf_bids := [(3, ⟨3, 9900, 5, 0⟩)], nextId := 4} 3).etf_asks 3 = false) := by
  have h := C9_resting_set_consistency {initState with
      etf_bids := [(3, ⟨3, 9900, 5, 0⟩)], nextId := 4} 3 (by decide)
  exact ⟨h.1 0 0, h.2 ⟨by decide, Or.inl (by decide)⟩⟩

/-! ### Claim C10 -/

/-- Claim C10: the first `on_hedge_filled_message` for a hedge order id
(resting in exactly one futures set, with an id below the current counter
value — both invariants of how ids are assigned) deletes the id from its
futures order set, and a second message with the same id is a complete
no-op: it changes no state (in particular `futures_position` and `position`)
and submits no order. -/
theorem C10_hedge_fill_idempotent (s : TraderState) (id : ℕ) (p v p2 v2 : ℤ)
    (hone : (containsKey s.futures_bids id = true ∧
        containsKey s.futures_asks id = false) ∨
      (containsKey s.futures_asks id = true ∧
        containsKey s.futures_bids id = false))
    (hid : id < s.nextId) :
    containsKey (on_hedge_filled s id p v).1.futures_bids id = false ∧
    containsKey (on_hedge_filled s id p v).1.futures_asks id = false ∧
    on_hedge_filled (on_hedge_filled s id p v).1 id p2 v2 =
      ((on_hedge_filled s id p v).1, []) := by
  have hne : id ≠ s.nextId := Nat.ne_of_lt hid
  have hstep : containsKey (on_hedge_filled s id p v).1.futures_bids id = false ∧
      containsKey (on_hedge_filled s id p v).1.futures_asks id = false := by
    rcases hone with ⟨hin, hout⟩ | ⟨hin, hout⟩
    · cases hh : s.is_hedging <;>
        simp [on_hedge_filled, hin, hout, hh, containsKey_eraseKV,
          containsKey_insertKV_of_ne _ _ _ _ hne]
    · cases hh : s.is_hedging <;>
        simp [on_hedge_filled, hin, hout, hh, containsKey_eraseKV,
          containsKey_insertKV_of_ne _ _ _ _ hne]
  refine ⟨hstep.1, hstep.2, ?_⟩
  rw [on_hedge_filled, if_neg (by simp [hstep.1]), if_neg (by simp [hstep.2])]

/-- Claim C10, witness: hedge order id 1 resting in `futures_bids` while in
the hedging state (so the first fill also inserts a fresh counter-hedge
order, id 2): the id is gone from both futures sets afterwards and a second
fill message for id 1 is a no-op, via `C10_hedge_fill_idempotent`. -/
theorem C10_hedge_fill_witness :
    containsKey (on_hedge_filled {initState with
        futures_bids := [(1, ⟨1, 200, 15, 0⟩)], nextId := 2,
        is_hedging := true} 1 150 15).1.futures_bids 1 = false ∧
    containsKey (on_hedge_filled {initState with
        futures_bids := [(1, ⟨1, 200, 15, 0⟩)], nextId := 2,
        is_hedging := true} 1 150 15).1.futures_asks 1 = false ∧
    on_hedge_filled (on_hedge_filled {initState with
        futures_bids := [(1, ⟨1, 200, 15, 0⟩)], nextId := 2,
        is_hedging := true} 1 150 15).1 1 150 15 =
      ((on_hedge_filled {initState with
        futures_bids := [(1, ⟨1, 200, 15, 0⟩)], nextId := 2,
        is_hedging := true} 1 150 15).1, []) :=
  C10_hedge_fill_idempotent _ 1 150 15 150 15 (Or.inl ⟨by decide, by decide⟩)
    (by decide)

/-! ### Claim C1 -/

set_option maxHeartbeats 1600000 in
/-- Claim C1: code_bug evaluation.  The no-breach invariant fails on the
code: in the `C1trace` scenario every insert passes `reset_orders`' guard
`|etf_position + lot| < POSITION_LIMIT` (position is still 0 at each of the
four requotes), but the cancelled-yet-unconfirmed bid orders all remain in
`etf_bids` and remain fillable (cancels are advisory), so the four 28-lot
fills drive `etf_position` to 112 > 100 after the fourth fill handler has
run to completion. -/
theorem C1_position_limit_breached :
    ∃ sfinal : TraderState, C1trace = some sfinal ∧
      sfinal.etf_position = 112 ∧ POSITION_LIMIT < |sfinal.etf_position| := by
  unfold C1trace
  rw [tick_eval_pos0 initState 0 rfl rfl]
  simp only [Option.bind_eq_bind, Option.some_bind]
  rw [tick_eval_pos0]
  simp only [Option.bind_eq_bind, Option.some_bind]
  rw [tick_eval_pos0]
  simp only [Option.bind_eq_bind, Option.some_bind]
  rw [tick_eval_pos0]
  simp only [Option.bind_eq_bind, Option.some_bind]
  refine ⟨_, rfl, by decide, by decide⟩
  all_goals decide

/-! ### Claim C2 -/

/-- Claim C2 (amended): when the unhedged interval has exceeded
`UNHEDGED_LIMIT` (net position above the unhedged threshold of 10 while not
already hedging), the triggering hedge-instrument book update (a) sends a
cancel for every resting quote order id on both sides, (b) submits exactly
one hedge order sized to bring the net position to exactly ±10 (within the
configured buffer of zero), inserts no quote order on that update, and
enters the hedging state; however, quoting is *not* suspended afterwards:
the hedging flag only suppresses the unhedged timer and re-triggering, and
subsequent book updates resume quote insertion before the hedge order's
fill is confirmed (see the counterexample
`C2_quoting_resumes_while_hedging`). -/
theorem C2_emergency_trigger_amended (s : TraderState) (now : ℚ)
    (ap av bp bv : List ℤ)
    (hhedge : s.is_hedging = false) (hposbig : 10 < |s.position|)
    (htime : UNHEDGED_LIMIT < now - s.unhedged_start) :
    on_order_book_update s now Instrument.future ap av bp bv =
      some ({s with
          unhedged_start := now, unhedged_interval := 0,
          nextId := s.nextId + 1,
          futures_asks := if 0 < s.position then
              insertKV s.futures_asks s.nextId
                ⟨s.nextId, MIN_BID_NEAREST_TICK, s.position - 10, 0⟩
            else s.futures_asks,
          futures_bids := if 0 < s.position then s.futures_bids
            else insertKV s.futures_bids s.nextId
              ⟨s.nextId, MAX_ASK_NEAREST_TICK, |10 + s.position|, 0⟩,
          is_hedging := true},
        (if 0 < s.position then
            Action.hedgeOrder s.nextId Side.ask MIN_BID_NEAREST_TICK (s.position - 10)
          else
            Action.hedgeOrder s.nextId Side.bid MAX_ASK_NEAREST_TICK |10 + s.position|) ::
          (s.etf_bids.map (fun kv => Action.cancelOrder kv.1) ++
            s.etf_asks.map (fun kv => Action.cancelOrder kv.1))) :=
  trigger_tick_eval s now ap av bp bv hhedge hposbig htime

/-- Claim C2, witness: a trigger tick from net position 20 (unhedged for 60
seconds): one 10-lot sell hedge at `MIN_BID_NEAREST_TICK`, no insert, the
hedging state entered, via `C2_emergency_trigger_amended`. -/
theorem C2_emergency_trigger_witness :
    on_order_book_update {initState with etf_position := 20, position := 20} 60
        Instrument.future [] [] [] [] =
      some ({initState with
          etf_position := 20, position := 20,
          unhedged_start := 60, unhedged_interval := 0, nextId := 2,
          futures_asks := [(1, ⟨1, MIN_BID_NEAREST_TICK, 10, 0⟩)],
          is_hedging := true},
        [Action.hedgeOrder 1 Side.ask MIN_BID_NEAREST_TICK 10]) := by
  have h := C2_emergency_trigger_amended
    {initState with etf_position := 20, position := 20} 60 [] [] [] [] rfl
    (by norm_num) (by norm_num [UNHEDGED_LIMIT, initState])
  rw [h]
  norm_num [insertKV, containsKey, initState]

set_option maxHeartbeats 1600000 in
/-- Claim C2, counterexample to part (c).  After the emergency trigger tick
(net position 50, hedge order id 1 for 40 lots submitted, hedging state
entered), the very next FUTURE book update — with the hedge fill still
unconfirmed — runs the normal quoting pipeline and inserts a new 34-lot ask
quote (id 2): quoting is not suspended until the hedge fill is confirmed. -/
theorem C2_quoting_resumes_while_hedging :
    ∃ (s1 : TraderState) (a1 : List Action) (s2 : TraderState) (a2 : List Action),
      on_order_book_update {initState with etf_position := 50, position := 50} 60
          Instrument.future B0_ask_prices B0_volumes B0_bid_prices B0_volumes =
        some (s1, a1) ∧
      s1.is_hedging = true ∧
      a1 = [Action.hedgeOrder 1 Side.ask MIN_BID_NEAREST_TICK 40] ∧
      on_order_book_update s1 61 Instrument.future B0_ask_prices B0_volumes
          B0_bid_prices B0_volumes = some (s2, a2) ∧
      Action.insertOrder 2 Side.sell 10100 34 ∈ a2 := by
  have h1 := trigger_tick_eval {initState with etf_position := 50, position := 50}
    60 B0_ask_prices B0_volumes B0_bid_prices B0_volumes rfl (by norm_num)
    (by norm_num [UNHEDGED_LIMIT, initState])
  refine ⟨_, _, _, _, h1, rfl, ?_, tick_eval_pos50_hedging _ 61 rfl rfl, ?_⟩
  · norm_num [initState]
  · decide

end RTG
